import Mathlib

/-!
Shallow embedding of the combat core of `dnd_rpg.cpp` (a turn-based RPG).
C++ `int` values are modelled as `Int` (all quantities involved stay far from
the 32-bit range). Dice rolls are passed explicitly as parameters: a call site
that rolls `dice.roll(20)` becomes a function taking the rolled value, and
`dice.chance(p)` becomes `chance p roll100` for the underlying `roll(100)`
value. Console output is dropped; the reported numbers that matter to the
claims (e.g. the Zoomer total damage) are returned as data.
-/

namespace DndRpg

/-- Dice.chance: `chance(percent)` is `roll(100) <= percent`, with the rolled
value made explicit as the second argument. -/
def chance (percent roll100 : Int) : Bool := roll100 ≤ percent

/-- Item struct: name, category string and effect magnitude. -/
structure Item where
  name : String
  type : String
  effect : Int
deriving Repr, DecidableEq

/-- Inventory: ordered list of items plus a gold counter. -/
structure Inventory where
  items : List Item
  gold : Int
deriving Repr, DecidableEq

/-- Inventory::add_item — push_back. -/
def Inventory.add_item (inv : Inventory) (it : Item) : Inventory :=
  { inv with items := inv.items ++ [it] }

/-- Inventory::add_gold. -/
def Inventory.add_gold (inv : Inventory) (amount : Int) : Inventory :=
  { inv with gold := inv.gold + amount }

/-- Inventory::has_item — linear scan by name. -/
def Inventory.has_item (inv : Inventory) (n : String) : Bool :=
  inv.items.any (fun it => it.name == n)

/-- Core of Inventory::remove_item: `find_if` by name followed by `erase` of
the first match, phrased as structural recursion on the item list. Returns
the removed item (if any) and the remaining list. -/
def remove_item_from (n : String) : List Item → Option Item × List Item
  | [] => (none, [])
  | it :: rest =>
    if it.name = n then (some it, rest)
    else
      let r := remove_item_from n rest
      (r.1, it :: r.2)

/-- Inventory::remove_item — removes the first item matching `n`, if present. -/
def Inventory.remove_item (inv : Inventory) (n : String) : Option Item × Inventory :=
  let r := remove_item_from n inv.items
  (r.1, { inv with items := r.2 })

/-- Character base class state. -/
structure Character where
  name : String
  health : Int
  max_health : Int
  attack : Int
  defense : Int
deriving Repr, DecidableEq

/-- Character constructor: starts at full health (`max_health = hp`). -/
def mkCharacter (n : String) (hp atk def_ : Int) : Character :=
  { name := n, health := hp, max_health := hp, attack := atk, defense := def_ }

/-- Character::is_alive. -/
def Character.is_alive (c : Character) : Bool := c.health > 0

/-- Character::take_damage: flat defense reduction, health clamped at 0. -/
def Character.take_damage (c : Character) (dmg : Int) : Character :=
  let actual := max 0 (dmg - c.defense)
  { c with health := max 0 (c.health - actual) }

/-- Character::heal: clamped at max_health. -/
def Character.heal (c : Character) (amount : Int) : Character :=
  { c with health := min c.max_health (c.health + amount) }

/-- Character::attack_move (default basic attack): d20 roll plus attack,
minus the target's defense, clamped at 0, applied via take_damage. -/
def Character.attack_move (attacker target : Character) (roll : Int) : Character :=
  let total := roll + attacker.attack
  let dmg := max 0 (total - target.defense)
  target.take_damage dmg

/-- Player: a Character plus mana, rage and an inventory. -/
structure Player extends Character where
  mana : Int
  max_mana : Int
  rage : Int
  inventory : Inventory
deriving Repr, DecidableEq

/-- Player::restore_mana — clamped at max_mana. -/
def Player.restore_mana (p : Player) (amount : Int) : Player :=
  { p with mana := min p.max_mana (p.mana + amount) }

/-- Player::spend_mana — clamped at 0. -/
def Player.spend_mana (p : Player) (cost : Int) : Player :=
  { p with mana := max 0 (p.mana - cost) }

/-- Player::add_to_rage — capped at 100. -/
def Player.add_to_rage (p : Player) (amount : Int) : Player :=
  { p with rage := min 100 (p.rage + amount) }

/-- Character::heal applied to a Player (the inherited method mutates the
embedded Character part). -/
def Player.heal (p : Player) (amount : Int) : Player :=
  { p with toCharacter := p.toCharacter.heal amount }

/-- Character::take_damage applied to a Player (inherited method). -/
def Player.take_damage (p : Player) (dmg : Int) : Player :=
  { p with toCharacter := p.toCharacter.take_damage dmg }

/-- Inventory::use_item. Removes the first item matching `n`; heals or
restores mana for the two known potions; puts the item back (push_back) and
reports an error for everything else; error when no item matches. The C++
returns `optional<string>` (`nullopt` on success); source message texts
contain apostrophes, elided here. -/
def Inventory.use_item (inv : Inventory) (n : String) (p : Player) :
    Option String × Inventory × Player :=
  match remove_item_from n inv.items with
  | (none, _) => (some ("You do not have " ++ n ++ "."), inv, p)
  | (some it, rest) =>
    let inv1 : Inventory := { inv with items := rest }
    if it.type = "potion" then
      if it.name = "healing_potion" then
        (none, inv1, p.heal it.effect)
      else if it.name = "mana_potion" then
        (none, inv1, p.restore_mana it.effect)
      else
        (some "Unknown potion type.", inv1.add_item it, p)
    else
      (some ("Can not use " ++ n ++ " right now."), inv1.add_item it, p)

/-- Enemy: a Character plus a boss flag. -/
structure Enemy extends Character where
  is_boss : Bool
deriving Repr, DecidableEq

/-- Enemy::attack_move override: d20 roll plus attack minus target defense,
clamped at 0, plus 15 bonus psychic damage on a 30% chance, all applied in
one take_damage call. `roll100` is the value of the `dice.chance(30)` roll. -/
def Enemy.attack_move (e : Enemy) (target : Character) (roll roll100 : Int) : Character :=
  let base_dmg := max 0 ((roll + e.attack) - target.defense)
  let psychic_dmg : Int := if chance 30 roll100 then 15 else 0
  target.take_damage (base_dmg + psychic_dmg)

/-- Enemy::special_move — a no-op for every enemy: neither the enemy nor the
target changes. -/
def Enemy.special_move (e : Enemy) (target : Character) : Enemy × Character :=
  (e, target)

/-- The four monster variants, stats from their constructors. -/
inductive EnemyKind where
  | demobat
  | demodog
  | flayedOne
  | mindFlayer
deriving Repr, DecidableEq

/-- Monster constructors: Demobat(25,12,4), Demodog(50,16,7),
FlayedOne(80,20,10), MindFlayer(250,35,18, boss). -/
def make_enemy : EnemyKind → Enemy
  | .demobat => { name := "Demobat", health := 25, max_health := 25, attack := 12, defense := 4, is_boss := false }
  | .demodog => { name := "Demodog", health := 50, max_health := 50, attack := 16, defense := 7, is_boss := false }
  | .flayedOne => { name := "Flayed One", health := 80, max_health := 80, attack := 20, defense := 10, is_boss := false }
  | .mindFlayer => { name := "Mind Flayer", health := 250, max_health := 250, attack := 35, defense := 18, is_boss := true }

/-- Wizard constructor: HP 120, ATK 20, DEF 15, two 30-point healing potions,
20 gold. -/
def wizard : Player :=
  { name := "Wizard", health := 120, max_health := 120, attack := 20, defense := 15,
    mana := 100, max_mana := 100, rage := 0,
    inventory := { items := [⟨"healing_potion", "potion", 30⟩, ⟨"healing_potion", "potion", 30⟩], gold := 20 } }

/-- Sorcerer constructor: HP 80, ATK 25, DEF 8, healing and mana potions,
30 gold. -/
def sorcerer : Player :=
  { name := "Sorcerer", health := 80, max_health := 80, attack := 25, defense := 8,
    mana := 100, max_mana := 100, rage := 0,
    inventory := { items := [⟨"healing_potion", "potion", 20⟩, ⟨"mana_potion", "potion", 30⟩], gold := 30 } }

/-- Knight constructor: HP 90, ATK 22, DEF 10, one healing potion, 40 gold. -/
def knight : Player :=
  { name := "Knight", health := 90, max_health := 90, attack := 22, defense := 10,
    mana := 100, max_mana := 100, rage := 0,
    inventory := { items := [⟨"healing_potion", "potion", 25⟩], gold := 40 } }

/-- Bard constructor: HP 140, ATK 28, DEF 12, one healing potion, 10 gold,
starts with 20 rage. -/
def bard : Player :=
  { name := "Bard", health := 140, max_health := 140, attack := 28, defense := 12,
    mana := 100, max_mana := 100, rage := 20,
    inventory := { items := [⟨"healing_potion", "potion", 40⟩], gold := 10 } }

/-- Zoomer constructor: HP 100, ATK 24, DEF 9, two healing potions, 35 gold. -/
def zoomer : Player :=
  { name := "Zoomer", health := 100, max_health := 100, attack := 24, defense := 9,
    mana := 100, max_mana := 100, rage := 0,
    inventory := { items := [⟨"healing_potion", "potion", 25⟩, ⟨"healing_potion", "potion", 25⟩], gold := 35 } }

/-- Wizard::special_move: 1.5x multiplier on the clamped attack total; the
C++ `static_cast<int>(x * 1.5)` on the non-negative `x` is floor, i.e.
truncating division of `3 * x` by 2. -/
def wizard_special_move (p : Player) (target : Character) (roll : Int) : Character :=
  let total_attack := roll + p.attack
  let dmg := Int.tdiv (max 0 (total_attack - target.defense) * 3) 2
  target.take_damage dmg

/-- Sorcerer::special_move: mana-gated (cost 30); on failure nothing changes;
on success spends the mana and attacks with a +10 elemental bonus. -/
def sorcerer_special_move (p : Player) (target : Character) (roll : Int) : Player × Character :=
  if p.mana < 30 then (p, target)
  else
    let p1 := p.spend_mana 30
    let total_attack := roll + p.attack + 10
    let dmg := max 0 (total_attack - target.defense)
    (p1, target.take_damage dmg)

/-- Knight::special_move: 25% critical chance for 2.5x damage; the C++
`static_cast<int>(base * 2.5)` on non-negative `base` is truncating division
of `5 * base` by 2. `roll100` is the value of the `dice.chance(25)` roll. -/
def knight_special_move (p : Player) (target : Character) (roll roll100 : Int) : Character :=
  let crit := chance 25 roll100
  let base_dmg := max 0 ((roll + p.attack) - target.defense)
  let dmg := if crit then Int.tdiv (base_dmg * 5) 2 else base_dmg
  target.take_damage dmg

/-- Bard::special_move: +1 damage per 10 missing HP (truncating division),
gains 15 rage. -/
def bard_special_move (p : Player) (target : Character) (roll : Int) : Player × Character :=
  let missing_hp := p.max_health - p.health
  let rage_bonus := Int.tdiv missing_hp 10
  let total_attack := roll + p.attack + rage_bonus
  let dmg := max 0 (total_attack - target.defense)
  (p.add_to_rage 15, target.take_damage dmg)

/-- Zoomer::special_move: first strike always; second strike only if the
target is still alive afterwards. Returns the resulting target and the total
damage the move reports (sum of the executed strikes). -/
def zoomer_special_move (p : Player) (target : Character) (roll1 roll2 : Int) : Character × Int :=
  let dmg1 := max 0 ((roll1 + p.attack) - target.defense)
  let t1 := target.take_damage dmg1
  if t1.is_alive then
    let dmg2 := max 0 ((roll2 + p.attack) - target.defense)
    (t1.take_damage dmg2, dmg1 + dmg2)
  else
    (t1, dmg1)

/-- GameEngine::spawn_random_enemy: the boss is forced once `turns >= 20`
while undefeated; otherwise a weighted d100 picks the variant. `r` is the
value of `dice.roll(100)` (only consulted in the unforced branch). -/
def spawn_random_enemy (turns : Int) (dragon_defeated : Bool) (r : Int) : EnemyKind :=
  if 20 ≤ turns ∧ dragon_defeated = false then .mindFlayer
  else if r ≤ 40 then .demobat
  else if r ≤ 70 then .demodog
  else if r ≤ 95 then .flayedOne
  else .mindFlayer

/-- Every way the program changes some combatant's health: direct damage
(traps), direct heal (potions, fountain, shrine, post-battle heal), the
default basic attack, the monster attack override, the monster no-op special
and each hero special, each viewed as acting on the target. -/
inductive CombatOp where
  | damage (d : Int)
  | healing (a : Int)
  | basic (attacker : Character) (roll : Int)
  | monsterBasic (attacker : Enemy) (roll roll100 : Int)
  | monsterSpecial (attacker : Enemy)
  | wizardSpec (attacker : Player) (roll : Int)
  | sorcererSpec (attacker : Player) (roll : Int)
  | knightSpec (attacker : Player) (roll roll100 : Int)
  | bardSpec (attacker : Player) (roll : Int)
  | zoomerSpec (attacker : Player) (roll1 roll2 : Int)

/-- Effect of a CombatOp on the combatant it targets. -/
def CombatOp.applyTo (op : CombatOp) (target : Character) : Character :=
  match op with
  | .damage d => target.take_damage d
  | .healing a => target.heal a
  | .basic atk roll => atk.attack_move target roll
  | .monsterBasic e roll roll100 => e.attack_move target roll roll100
  | .monsterSpecial e => (e.special_move target).2
  | .wizardSpec p roll => wizard_special_move p target roll
  | .sorcererSpec p roll => (sorcerer_special_move p target roll).2
  | .knightSpec p roll roll100 => knight_special_move p target roll roll100
  | .bardSpec p roll => (bard_special_move p target roll).2
  | .zoomerSpec p r1 r2 => (zoomer_special_move p target r1 r2).1

/-- The health invariant of the spec: current health between 0 and max. -/
def healthInv (c : Character) : Prop := 0 ≤ c.health ∧ c.health ≤ c.max_health


/-! ## Basic lemmas about the combat primitives -/

theorem is_alive_iff (c : Character) : c.is_alive = true ↔ 0 < c.health := by
  simp [Character.is_alive]

theorem take_damage_healthInv (c : Character) (d : Int) (h : healthInv c) :
    healthInv (c.take_damage d) := by
  obtain ⟨h1, h2⟩ := h
  dsimp only [healthInv, Character.take_damage] at *
  omega

theorem heal_healthInv (c : Character) (a : Int) (h : healthInv c) (ha : 0 ≤ a) :
    healthInv (c.heal a) := by
  obtain ⟨h1, h2⟩ := h
  dsimp only [healthInv, Character.heal] at *
  omega

/-! ## Claim theorems -/

/-- Claim C1: for every combatant satisfying `0 ≤ health ≤ max_health`, every
operation of the program (take_damage, heal with the non-negative amounts the
program uses, every basic attack and special move, every event effect)
preserves `0 ≤ health ≤ max_health`, and afterwards the combatant is alive
iff its health is positive. -/
theorem C1_health_invariant (c : Character) (op : CombatOp)
    (h : healthInv c) (hheal : ∀ a, op = CombatOp.healing a → 0 ≤ a) :
    healthInv (op.applyTo c) ∧
      ((op.applyTo c).is_alive = true ↔ 0 < (op.applyTo c).health) := by
  refine ⟨?_, is_alive_iff _⟩
  cases op with
  | damage d => exact take_damage_healthInv _ _ h
  | healing a => exact heal_healthInv _ _ h (hheal a rfl)
  | basic atk roll => exact take_damage_healthInv _ _ h
  | monsterBasic e roll roll100 => exact take_damage_healthInv _ _ h
  | monsterSpecial e => exact h
  | wizardSpec p roll => exact take_damage_healthInv _ _ h
  | sorcererSpec p roll =>
    dsimp only [CombatOp.applyTo, sorcerer_special_move]
    split
    · exact h
    · exact take_damage_healthInv _ _ h
  | knightSpec p roll roll100 => exact take_damage_healthInv _ _ h
  | bardSpec p roll => exact take_damage_healthInv _ _ h
  | zoomerSpec p r1 r2 =>
    dsimp only [CombatOp.applyTo, zoomer_special_move]
    split
    · exact take_damage_healthInv _ _ (take_damage_healthInv _ _ h)
    · exact take_damage_healthInv _ _ h

/-- Witness for C1: the Demobat (health 25 of 25) hit by a heal of 30 keeps
the invariant and the alive test agrees with positivity. -/
theorem C1_health_invariant_witness :
    healthInv ((CombatOp.healing 30).applyTo (make_enemy EnemyKind.demobat).toCharacter) ∧
      (((CombatOp.healing 30).applyTo (make_enemy EnemyKind.demobat).toCharacter).is_alive = true ↔
        0 < ((CombatOp.healing 30).applyTo (make_enemy EnemyKind.demobat).toCharacter).health) :=
  C1_health_invariant _ _ (by constructor <;> decide)
    (by intro a ha; injection ha with h1; omega)

/-- Claim C2: take_damage sets health to `max 0 (h - max 0 (amount - def))`,
heal sets health to `min max_health (h + amount)`, so heal never raises
health above max_health. -/
theorem C2_damage_heal_formulas (c : Character) (amount a : Int) :
    (c.take_damage amount).health = max 0 (c.health - max 0 (amount - c.defense)) ∧
    (c.heal a).health = min c.max_health (c.health + a) ∧
    (c.heal a).health ≤ c.max_health := by
  refine ⟨rfl, rfl, ?_⟩
  dsimp only [Character.heal]
  omega

/-- Claim C3: the default basic attack applies
`max 0 (roll + ATK - DEF_target)` via take_damage, so for any d20 roll in
[1,20] the target loses exactly
`min health (max 0 (max 0 (roll + ATK - DEF) - DEF))` health — the target
defense is counted twice. -/
theorem C3_basic_attack (attacker target : Character) (r : Int)
    (h1 : 1 ≤ r) (h2 : r ≤ 20) :
    attacker.attack_move target r
      = target.take_damage (max 0 (r + attacker.attack - target.defense)) ∧
    target.health - (attacker.attack_move target r).health
      = min target.health
          (max 0 (max 0 (r + attacker.attack - target.defense) - target.defense)) := by
  refine ⟨rfl, ?_⟩
  dsimp only [Character.attack_move, Character.take_damage]
  omega

/-- Witness for C3: the Wizard basic-attacks a Demobat with a roll of 10. -/
theorem C3_basic_attack_witness :
    ((1 : Int) ≤ 10 ∧ (10 : Int) ≤ 20) ∧
    (wizard.toCharacter.attack_move (make_enemy EnemyKind.demobat).toCharacter 10
      = (make_enemy EnemyKind.demobat).toCharacter.take_damage
          (max 0 (10 + wizard.toCharacter.attack - (make_enemy EnemyKind.demobat).toCharacter.defense)) ∧
    (make_enemy EnemyKind.demobat).toCharacter.health
        - (wizard.toCharacter.attack_move (make_enemy EnemyKind.demobat).toCharacter 10).health
      = min (make_enemy EnemyKind.demobat).toCharacter.health
          (max 0 (max 0 (10 + wizard.toCharacter.attack - (make_enemy EnemyKind.demobat).toCharacter.defense)
            - (make_enemy EnemyKind.demobat).toCharacter.defense))) :=
  ⟨⟨by decide, by decide⟩, C3_basic_attack _ _ 10 (by decide) (by decide)⟩

/-- Claim C9: for a fixed combatant, the health lost to take_damage is a
non-decreasing function of the damage argument, and take_damage never
increases health (for any integer damage, including non-positive); the
combatant has non-negative health, as the data-model invariant guarantees. -/
theorem C9_damage_monotone (c : Character) (d d1 d2 : Int) (h : d1 ≤ d2)
    (hc : 0 ≤ c.health) :
    c.max_health - (c.take_damage d1).health
      ≤ c.max_health - (c.take_damage d2).health ∧
    (c.take_damage d).health ≤ c.health := by
  dsimp only [Character.take_damage]
  omega

/-- Witness for C9: the Demodog loses at least as much health to 12 damage as
to 7, and a -3 damage hit does not heal it. -/
theorem C9_damage_monotone_witness :
    ((7 : Int) ≤ 12 ∧ (0 : Int) ≤ (make_enemy EnemyKind.demodog).toCharacter.health) ∧
    ((make_enemy EnemyKind.demodog).toCharacter.max_health
        - ((make_enemy EnemyKind.demodog).toCharacter.take_damage 7).health
      ≤ (make_enemy EnemyKind.demodog).toCharacter.max_health
        - ((make_enemy EnemyKind.demodog).toCharacter.take_damage 12).health ∧
    ((make_enemy EnemyKind.demodog).toCharacter.take_damage (-3)).health
      ≤ (make_enemy EnemyKind.demodog).toCharacter.health) :=
  ⟨⟨by decide, by decide⟩, C9_damage_monotone _ (-3) 7 12 (by decide) (by decide)⟩


/-- Claim C4: every monster variant's basic attack is
`take_damage (max 0 (roll + ATK - DEF_target) + bonus)` where the bonus is 15
exactly when the 30% chance roll succeeds (d100 value at most 30), and every
monster's special ability changes no state. -/
theorem C4_monster_attack (k : EnemyKind) (target : Character) (roll roll100 : Int) :
    (make_enemy k).attack_move target roll roll100
      = target.take_damage (max 0 (roll + (make_enemy k).attack - target.defense)
          + (if chance 30 roll100 then 15 else 0)) ∧
    (chance 30 roll100 = true ↔ roll100 ≤ 30) ∧
    (make_enemy k).special_move target = (make_enemy k, target) := by
  refine ⟨rfl, ?_, rfl⟩
  simp [chance]

/-- Claim C5: the Sorcerer special with mana below 30 changes nothing (no
damage, no mana spent); with mana at least 30 it spends exactly 30 mana and
deals `max 0 (roll + ATK + 10 - DEF_target)` via take_damage. -/
theorem C5_sorcerer_special (p : Player) (target : Character) (roll : Int) :
    (p.mana < 30 →
      sorcerer_special_move p target roll = (p, target)) ∧
    (30 ≤ p.mana →
      sorcerer_special_move p target roll
        = ({ p with mana := p.mana - 30 },
            target.take_damage (max 0 (roll + p.attack + 10 - target.defense))) ∧
      (sorcerer_special_move p target roll).1.mana = p.mana - 30) := by
  constructor
  · intro hlt
    simp [sorcerer_special_move, hlt]
  · intro hge
    have hmax : max 0 (p.mana - 30) = p.mana - 30 := by omega
    have hif : ¬(p.mana < 30) := by omega
    constructor
    · simp [sorcerer_special_move, hif, Player.spend_mana, hmax]
    · simp [sorcerer_special_move, hif, Player.spend_mana, hmax]

/-- Witness for C5: a Sorcerer at 10 mana fails atomically against a Demodog;
the stock Sorcerer (100 mana) spends exactly 30 and damages it. -/
theorem C5_sorcerer_special_witness :
    (({ sorcerer with mana := 10 } : Player).mana < 30 ∧
      sorcerer_special_move { sorcerer with mana := 10 }
          (make_enemy EnemyKind.demodog).toCharacter 10
        = ({ sorcerer with mana := 10 }, (make_enemy EnemyKind.demodog).toCharacter)) ∧
    ((30 : Int) ≤ sorcerer.mana ∧
      (sorcerer_special_move sorcerer (make_enemy EnemyKind.demodog).toCharacter 10
        = ({ sorcerer with mana := sorcerer.mana - 30 },
            (make_enemy EnemyKind.demodog).toCharacter.take_damage
              (max 0 (10 + sorcerer.attack + 10 - (make_enemy EnemyKind.demodog).toCharacter.defense))) ∧
      (sorcerer_special_move sorcerer (make_enemy EnemyKind.demodog).toCharacter 10).1.mana
        = sorcerer.mana - 30)) :=
  ⟨⟨by decide, (C5_sorcerer_special _ _ _).1 (by decide)⟩,
   ⟨by decide, (C5_sorcerer_special _ _ _).2 (by decide)⟩⟩

/-- Claim C6: the Zoomer special always executes the first strike; it
executes the second strike iff the target is still alive after the first, the
result is independent of the second roll when the target died first, and the
reported total equals the sum of the executed strikes. -/
theorem C6_zoomer_special (p : Player) (target : Character) (r1 r2 : Int) :
    ((target.take_damage (max 0 ((r1 + p.attack) - target.defense))).is_alive = true →
      zoomer_special_move p target r1 r2
        = ((target.take_damage (max 0 ((r1 + p.attack) - target.defense))).take_damage
              (max 0 ((r2 + p.attack) - target.defense)),
            max 0 ((r1 + p.attack) - target.defense)
              + max 0 ((r2 + p.attack) - target.defense))) ∧
    ((target.take_damage (max 0 ((r1 + p.attack) - target.defense))).is_alive = false →
      zoomer_special_move p target r1 r2
        = (target.take_damage (max 0 ((r1 + p.attack) - target.defense)),
            max 0 ((r1 + p.attack) - target.defense)) ∧
      ∀ s2 : Int, zoomer_special_move p target r1 s2
        = zoomer_special_move p target r1 r2) := by
  constructor
  · intro halive
    simp [zoomer_special_move, halive]
  · intro hdead
    refine ⟨by simp [zoomer_special_move, hdead], ?_⟩
    intro s2
    simp [zoomer_special_move, hdead]

/-- Witness for C6: against the Mind Flayer (250 HP) the first strike leaves
it alive and both strikes run; against a Demobat (25 HP) a roll of 10 kills
on the first strike and the second is suppressed. -/
theorem C6_zoomer_special_witness :
    ((((make_enemy EnemyKind.mindFlayer).toCharacter.take_damage
          (max 0 ((10 + zoomer.attack) - (make_enemy EnemyKind.mindFlayer).toCharacter.defense))).is_alive = true) ∧
      zoomer_special_move zoomer (make_enemy EnemyKind.mindFlayer).toCharacter 10 12
        = (((make_enemy EnemyKind.mindFlayer).toCharacter.take_damage
              (max 0 ((10 + zoomer.attack) - (make_enemy EnemyKind.mindFlayer).toCharacter.defense))).take_damage
              (max 0 ((12 + zoomer.attack) - (make_enemy EnemyKind.mindFlayer).toCharacter.defense)),
            max 0 ((10 + zoomer.attack) - (make_enemy EnemyKind.mindFlayer).toCharacter.defense)
              + max 0 ((12 + zoomer.attack) - (make_enemy EnemyKind.mindFlayer).toCharacter.defense))) ∧
    ((((make_enemy EnemyKind.demobat).toCharacter.take_damage
          (max 0 ((10 + zoomer.attack) - (make_enemy EnemyKind.demobat).toCharacter.defense))).is_alive = false) ∧
      (zoomer_special_move zoomer (make_enemy EnemyKind.demobat).toCharacter 10 12
        = ((make_enemy EnemyKind.demobat).toCharacter.take_damage
              (max 0 ((10 + zoomer.attack) - (make_enemy EnemyKind.demobat).toCharacter.defense)),
            max 0 ((10 + zoomer.attack) - (make_enemy EnemyKind.demobat).toCharacter.defense)) ∧
      ∀ s2 : Int, zoomer_special_move zoomer (make_enemy EnemyKind.demobat).toCharacter 10 s2
        = zoomer_special_move zoomer (make_enemy EnemyKind.demobat).toCharacter 10 12)) :=
  ⟨⟨by decide, (C6_zoomer_special zoomer _ 10 12).1 (by decide)⟩,
   ⟨by decide, (C6_zoomer_special zoomer _ 10 12).2 (by decide)⟩⟩

/-- Claim C8: with the turn counter at 20 or more and the boss undefeated,
the spawned monster is the Mind Flayer regardless of the d100 roll; otherwise
the d100 bands are [1,40] Demobat, [41,70] Demodog, [71,95] Flayed One,
[96,100] Mind Flayer. -/
theorem C8_spawn (turns : Int) (defeated : Bool) (r : Int) :
    (20 ≤ turns → defeated = false →
      spawn_random_enemy turns defeated r = EnemyKind.mindFlayer) ∧
    (turns < 20 ∨ defeated = true →
      (1 ≤ r → r ≤ 40 → spawn_random_enemy turns defeated r = EnemyKind.demobat) ∧
      (41 ≤ r → r ≤ 70 → spawn_random_enemy turns defeated r = EnemyKind.demodog) ∧
      (71 ≤ r → r ≤ 95 → spawn_random_enemy turns defeated r = EnemyKind.flayedOne) ∧
      (96 ≤ r → r ≤ 100 → spawn_random_enemy turns defeated r = EnemyKind.mindFlayer)) := by
  constructor
  · intro ht hd
    simp [spawn_random_enemy, ht, hd]
  · intro hcase
    have hne : ¬(20 ≤ turns ∧ defeated = false) := by
      intro hcon
      rcases hcase with h | h
      · exact absurd hcon.1 (by omega)
      · rw [h] at hcon
        exact Bool.noConfusion hcon.2
    refine ⟨?_, ?_, ?_, ?_⟩
    · intro hlo hhi
      simp [spawn_random_enemy, hne, hhi]
    · intro hlo hhi
      have h40 : ¬(r ≤ 40) := by omega
      simp [spawn_random_enemy, hne, h40, hhi]
    · intro hlo hhi
      have h40 : ¬(r ≤ 40) := by omega
      have h70 : ¬(r ≤ 70) := by omega
      simp [spawn_random_enemy, hne, h40, h70, hhi]
    · intro hlo hhi
      have h40 : ¬(r ≤ 40) := by omega
      have h70 : ¬(r ≤ 70) := by omega
      have h95 : ¬(r ≤ 95) := by omega
      simp [spawn_random_enemy, hne, h40, h70, h95]

/-- Witness for C8: at turn 25 with the boss undefeated a roll of 1 still
spawns the Mind Flayer; at turn 5 each band spawns its monster. -/
theorem C8_spawn_witness :
    ((20 : Int) ≤ 25 ∧ spawn_random_enemy 25 false 1 = EnemyKind.mindFlayer) ∧
    ((5 : Int) < 20 ∧
      spawn_random_enemy 5 false 10 = EnemyKind.demobat ∧
      spawn_random_enemy 5 false 50 = EnemyKind.demodog ∧
      spawn_random_enemy 5 false 80 = EnemyKind.flayedOne ∧
      spawn_random_enemy 5 false 100 = EnemyKind.mindFlayer) :=
  ⟨⟨by decide, (C8_spawn 25 false 1).1 (by decide) rfl⟩,
   ⟨by decide,
    ((C8_spawn 5 false 10).2 (Or.inl (by decide))).1 (by decide) (by decide),
    ((C8_spawn 5 false 50).2 (Or.inl (by decide))).2.1 (by decide) (by decide),
    ((C8_spawn 5 false 80).2 (Or.inl (by decide))).2.2.1 (by decide) (by decide),
    ((C8_spawn 5 false 100).2 (Or.inl (by decide))).2.2.2 (by decide) (by decide)⟩⟩


/-! ## Lemmas about first-match removal -/

theorem remove_item_from_none (n : String) (l : List Item)
    (h : ∀ it ∈ l, it.name ≠ n) :
    remove_item_from n l = (none, l) := by
  induction l with
  | nil => rfl
  | cons a as ih =>
    have ha : ¬(a.name = n) := h a (by simp)
    have has : remove_item_from n as = (none, as) :=
      ih (fun it hit => h it (by simp [hit]))
    simp only [remove_item_from, if_neg ha, has]

theorem remove_item_from_some (n : String) (l : List Item) (it : Item) (rest : List Item)
    (h : remove_item_from n l = (some it, rest)) :
    ∃ l1 l2, l = l1 ++ it :: l2 ∧ rest = l1 ++ l2 ∧
      (∀ x ∈ l1, x.name ≠ n) ∧ it.name = n := by
  induction l generalizing rest with
  | nil => exact absurd h (by simp [remove_item_from])
  | cons a as ih =>
    rw [remove_item_from] at h
    by_cases ha : a.name = n
    · rw [if_pos ha] at h
      simp only [Prod.mk.injEq, Option.some.injEq] at h
      obtain ⟨h1, h2⟩ := h
      subst h1
      subst h2
      exact ⟨[], as, rfl, rfl, by simp, ha⟩
    · rw [if_neg ha] at h
      simp only [Prod.mk.injEq] at h
      obtain ⟨h1, h2⟩ := h
      obtain ⟨l1, l2, hl, hr, hnm, hname⟩ :=
        ih (remove_item_from n as).2 (by rw [← h1])
      refine ⟨a :: l1, l2, by simp [hl], ?_, ?_, hname⟩
      · rw [← h2, hr]
        rfl
      · intro x hx
        rcases List.mem_cons.mp hx with hxa | hx2
        · rw [hxa]
          exact ha
        · exact hnm x hx2

/-- Claim C7: use_item fails leaving everything unchanged when no item
matches; for the first matching item it heals (healing_potion, clamped at
max health) or restores mana (mana_potion, clamped at max mana), removing
exactly that one item; any other potion name or non-potion category fails
with a descriptive reason and the item goes back into the inventory. -/
theorem C7_use_item (inv : Inventory) (n : String) (p : Player) :
    ((∀ x ∈ inv.items, x.name ≠ n) →
      inv.use_item n p = (some ("You do not have " ++ n ++ "."), inv, p)) ∧
    (∀ it rest, remove_item_from n inv.items = (some it, rest) →
      (it.type = "potion" → it.name = "healing_potion" →
        inv.use_item n p = (none, { inv with items := rest }, p.heal it.effect) ∧
        (p.heal it.effect).health = min p.max_health (p.health + it.effect) ∧
        List.Perm inv.items (it :: rest)) ∧
      (it.type = "potion" → it.name = "mana_potion" →
        inv.use_item n p = (none, { inv with items := rest }, p.restore_mana it.effect) ∧
        (p.restore_mana it.effect).mana = min p.max_mana (p.mana + it.effect) ∧
        List.Perm inv.items (it :: rest)) ∧
      (it.type = "potion" → it.name ≠ "healing_potion" → it.name ≠ "mana_potion" →
        inv.use_item n p
          = (some "Unknown potion type.", { inv with items := rest ++ [it] }, p)) ∧
      (it.type ≠ "potion" →
        inv.use_item n p
          = (some ("Can not use " ++ n ++ " right now."),
              { inv with items := rest ++ [it] }, p))) := by
  constructor
  · intro habs
    simp only [Inventory.use_item, remove_item_from_none n inv.items habs]
  · intro it rest hrem
    have hperm : List.Perm inv.items (it :: rest) := by
      obtain ⟨l1, l2, hl, hr, _, _⟩ := remove_item_from_some n inv.items it rest hrem
      rw [hl, hr]
      exact List.perm_middle
    refine ⟨?_, ?_, ?_, ?_⟩
    · intro htype hname
      refine ⟨?_, rfl, hperm⟩
      simp [Inventory.use_item, hrem, htype, hname]
    · intro htype hname
      refine ⟨?_, rfl, hperm⟩
      have hnh : it.name ≠ "healing_potion" := by simp [hname]
      simp [Inventory.use_item, hrem, htype, hname, hnh]
    · intro htype hname1 hname2
      simp [Inventory.use_item, hrem, htype, hname1, hname2, Inventory.add_item]
    · intro htype
      simp [Inventory.use_item, hrem, htype, Inventory.add_item]


/-- Witness for C7: an absent name fails on the Wizard inventory; the
Wizard uses a healing potion; the Sorcerer uses a mana potion; an unknown
potion and a weapon item both fail and go back into the inventory. -/
theorem C7_use_item_witness :
    ((∀ x ∈ wizard.inventory.items, x.name ≠ "xyz") ∧
      wizard.inventory.use_item "xyz" wizard
        = (some ("You do not have " ++ "xyz" ++ "."), wizard.inventory, wizard)) ∧
    (remove_item_from "healing_potion" wizard.inventory.items
        = (some ⟨"healing_potion", "potion", 30⟩, [⟨"healing_potion", "potion", 30⟩]) ∧
      wizard.inventory.use_item "healing_potion" wizard
        = (none, { wizard.inventory with items := [⟨"healing_potion", "potion", 30⟩] },
            wizard.heal 30) ∧
      (wizard.heal 30).health = min wizard.max_health (wizard.health + 30) ∧
      List.Perm wizard.inventory.items
        (⟨"healing_potion", "potion", 30⟩ :: [⟨"healing_potion", "potion", 30⟩])) ∧
    (remove_item_from "mana_potion" sorcerer.inventory.items
        = (some ⟨"mana_potion", "potion", 30⟩, [⟨"healing_potion", "potion", 20⟩]) ∧
      sorcerer.inventory.use_item "mana_potion" sorcerer
        = (none, { sorcerer.inventory with items := [⟨"healing_potion", "potion", 20⟩] },
            sorcerer.restore_mana 30) ∧
      (sorcerer.restore_mana 30).mana = min sorcerer.max_mana (sorcerer.mana + 30) ∧
      List.Perm sorcerer.inventory.items
        (⟨"mana_potion", "potion", 30⟩ :: [⟨"healing_potion", "potion", 20⟩])) ∧
    (({ items := [⟨"strange_potion", "potion", 5⟩], gold := 0 } : Inventory).use_item
          "strange_potion" wizard
        = (some "Unknown potion type.",
            { ({ items := [⟨"strange_potion", "potion", 5⟩], gold := 0 } : Inventory) with
              items := [] ++ [⟨"strange_potion", "potion", 5⟩] }, wizard)) ∧
    (({ items := [⟨"cursed_sword_plus5", "weapon", 5⟩], gold := 0 } : Inventory).use_item
          "cursed_sword_plus5" wizard
        = (some ("Can not use " ++ "cursed_sword_plus5" ++ " right now."),
            { ({ items := [⟨"cursed_sword_plus5", "weapon", 5⟩], gold := 0 } : Inventory) with
              items := [] ++ [⟨"cursed_sword_plus5", "weapon", 5⟩] }, wizard)) :=
  ⟨⟨by decide, (C7_use_item wizard.inventory "xyz" wizard).1 (by decide)⟩,
   ⟨by decide,
    ((C7_use_item wizard.inventory "healing_potion" wizard).2
      ⟨"healing_potion", "potion", 30⟩ [⟨"healing_potion", "potion", 30⟩] (by decide)).1
      rfl rfl⟩,
   ⟨by decide,
    ((C7_use_item sorcerer.inventory "mana_potion" sorcerer).2
      ⟨"mana_potion", "potion", 30⟩ [⟨"healing_potion", "potion", 20⟩] (by decide)).2.1
      rfl rfl⟩,
   ((C7_use_item { items := [⟨"strange_potion", "potion", 5⟩], gold := 0 }
      "strange_potion" wizard).2
      ⟨"strange_potion", "potion", 5⟩ [] (by decide)).2.2.1 rfl (by decide) (by decide),
   ((C7_use_item { items := [⟨"cursed_sword_plus5", "weapon", 5⟩], gold := 0 }
      "cursed_sword_plus5" wizard).2
      ⟨"cursed_sword_plus5", "weapon", 5⟩ [] (by decide)).2.2.2 (by decide)⟩

/-- Claim C10: a failed use of a present but unusable item (unknown potion
name or non-potion category) reports an error, leaves the gold and the hero
unchanged, keeps the same multiset of items, and moves the failed item to
the back of the list while the other items keep their relative order. -/
theorem C10_failed_use_moves_item_back (inv : Inventory) (n : String) (p : Player)
    (it : Item) (rest : List Item)
    (hrem : remove_item_from n inv.items = (some it, rest))
    (hbad : it.type ≠ "potion" ∨
      (it.type = "potion" ∧ it.name ≠ "healing_potion" ∧ it.name ≠ "mana_potion")) :
    ((inv.use_item n p).1.isSome = true ∧
      (inv.use_item n p).2.1 = { inv with items := rest ++ [it] } ∧
      (inv.use_item n p).2.1.gold = inv.gold ∧
      (inv.use_item n p).2.2 = p) ∧
    List.Perm (rest ++ [it]) inv.items ∧
    (∃ l1 l2, inv.items = l1 ++ it :: l2 ∧ rest = l1 ++ l2 ∧ ∀ x ∈ l1, x.name ≠ n) := by
  obtain ⟨l1, l2, hl, hr, hnm, hname⟩ := remove_item_from_some n inv.items it rest hrem
  have hperm : List.Perm (rest ++ [it]) inv.items := by
    rw [hl, hr]
    exact (List.perm_append_singleton it (l1 ++ l2)).trans List.perm_middle.symm
  refine ⟨?_, hperm, l1, l2, hl, hr, hnm⟩
  rcases hbad with hb | ⟨hb1, hb2, hb3⟩
  · simp [Inventory.use_item, hrem, hb, Inventory.add_item]
  · simp [Inventory.use_item, hrem, hb1, hb2, hb3, Inventory.add_item]

/-- The cursed sword item the narrative event can add (a non-potion). -/
def cursed_sword : Item := ⟨"cursed_sword_plus5", "weapon", 5⟩

/-- A healing potion item as found in the game. -/
def healing_potion_item : Item := ⟨"healing_potion", "potion", 30⟩

/-- A sample inventory holding the cursed sword in front of a healing potion. -/
def sword_inventory : Inventory := { items := [cursed_sword, healing_potion_item], gold := 12 }

/-- Witness for C10: using the cursed sword from `sword_inventory` fails,
keeps 12 gold and the hero unchanged, keeps both items, and moves the sword
behind the potion. -/
theorem C10_failed_use_moves_item_back_witness :
    (remove_item_from "cursed_sword_plus5" sword_inventory.items
        = (some cursed_sword, [healing_potion_item]) ∧
      cursed_sword.type ≠ "potion") ∧
    (((sword_inventory.use_item "cursed_sword_plus5" wizard).1.isSome = true ∧
      (sword_inventory.use_item "cursed_sword_plus5" wizard).2.1
        = { sword_inventory with items := [healing_potion_item] ++ [cursed_sword] } ∧
      (sword_inventory.use_item "cursed_sword_plus5" wizard).2.1.gold = sword_inventory.gold ∧
      (sword_inventory.use_item "cursed_sword_plus5" wizard).2.2 = wizard) ∧
    List.Perm ([healing_potion_item] ++ [cursed_sword]) sword_inventory.items ∧
    (∃ l1 l2, sword_inventory.items = l1 ++ cursed_sword :: l2 ∧
      [healing_potion_item] = l1 ++ l2 ∧
      ∀ x ∈ l1, x.name ≠ "cursed_sword_plus5")) :=
  ⟨⟨by decide, by decide⟩,
   C10_failed_use_moves_item_back sword_inventory "cursed_sword_plus5" wizard
     cursed_sword [healing_potion_item] (by decide) (Or.inl (by decide))⟩

end DndRpg
